import Mathlib

/-!
# Verification of the CropInsight two-stage inference pipeline

Shallow embedding of the inference logic of `src/CropInsight.py`
(the `show_prediction` flow, the model loaders and the derived-index
calculations).  Numeric values are embedded as exact rationals `ℚ`;
the pre-trained classifier, label encoder and regressor are opaque
artifacts and are embedded as abstract functions; loading and
regressor inference, which may raise in Python, are embedded with
`Option` / `Except`.
-/

namespace CropInsight

/-- The seven base agronomic inputs collected by the Stage-1 form
(`N`, `P`, `K`, `temp`, `hum`, `ph`, `rain` in `show_prediction`). -/
structure FarmObservation where
  N : ℚ
  P : ℚ
  K : ℚ
  temperature : ℚ
  humidity : ℚ
  ph : ℚ
  rainfall : ℚ
deriving DecidableEq, Repr

/-- The additional Stage-2 form inputs (`soil_moisture`, `sunlight_hours`,
`fertilizer_used`, `pesticide_used`, `soil_type`, `irrigation_type`). -/
structure YieldInputs where
  soil_moisture : ℚ
  sunlight_hours : ℚ
  fertilizer_used : ℚ
  pesticide_used : ℚ
  soil_type : String
  irrigation_type : String
deriving DecidableEq, Repr

/-- Line 1294: `input_stage1 = np.array([[N, P, K, temp, hum, ph, rain]])`.
The single row of the Stage-1 feature matrix, in source order. -/
def input_stage1 (o : FarmObservation) : List ℚ :=
  [o.N, o.P, o.K, o.temperature, o.humidity, o.ph, o.rainfall]

/-- The Stage-1 artifacts loaded by `load_stage1`: the classifier
(`crop_recommendation_rf.pkl`), embedded as the integer class index it
emits for a feature row, and the label encoder (`label_encoder.pkl`),
embedded as its `inverse_transform` from class index to crop name. -/
structure Stage1Artifacts where
  model : List ℚ → ℕ
  le : ℕ → String

/-- Lines 1295-1296:
`crop_encoded = stage1_model.predict(input_stage1)[0]`;
`crop_name = le.inverse_transform([crop_encoded])[0]`. -/
def predict_crop (model : List ℚ → ℕ) (le : ℕ → String) (o : FarmObservation) : String :=
  le (model (input_stage1 o))

/-- Line 1332: `thi = temp - (0.55 - 0.0055 * hum) * (temp - 14.4)`. -/
def thi (temperature humidity : ℚ) : ℚ :=
  temperature - (0.55 - 0.0055 * humidity) * (temperature - 14.4)

/-- Line 1333: `sfi = (N + P + K) / 3`. -/
def sfi (o : FarmObservation) : ℚ :=
  (o.N + o.P + o.K) / 3

/-- Lines 1461-1462 (and identically 1424-1425, 1441-1442):
`match_pct = 100 - abs((user_val - freq_val) / freq_val * 100) if freq_val != 0 else 100`
then `match_pct = max(0, min(100, match_pct))`. -/
def match_pct (user_val freq_val : ℚ) : ℚ :=
  max 0 (min 100 (if freq_val ≠ 0 then 100 - |(user_val - freq_val) / freq_val * 100| else 100))

/-- The spec's formula for the per-parameter match score, written from the
spec's words for comparison with the source's `match_pct`:
`clamp(100 - |user - reference| / reference * 100, 0, 100)` for a non-zero
reference, `100` for a zero reference. -/
def match_pct_spec (user reference : ℚ) : ℚ :=
  if reference ≠ 0 then max 0 (min 100 (100 - |user - reference| / reference * 100)) else 100

/-- The reference values used in the parameter match score (the
`crop_frequently_used` dict), one per base parameter. -/
structure CropReference where
  N : ℚ
  P : ℚ
  K : ℚ
  temperature : ℚ
  humidity : ℚ
  ph : ℚ
  rainfall : ℚ
deriving DecidableEq, Repr

/-- Lines 1457-1463: the list `overall_matches` of the seven per-parameter
scores, built by iterating over the `params` dict in its insertion order
(N, P, K, pH, Temperature, Humidity, Rainfall). -/
def overall_matches (o : FarmObservation) (ref : CropReference) : List ℚ :=
  [match_pct o.N ref.N, match_pct o.P ref.P, match_pct o.K ref.K,
   match_pct o.ph ref.ph, match_pct o.temperature ref.temperature,
   match_pct o.humidity ref.humidity, match_pct o.rainfall ref.rainfall]

/-- Line 1466: `avg_match = sum(overall_matches) / len(overall_matches)`. -/
def avg_match (o : FarmObservation) (ref : CropReference) : ℚ :=
  (overall_matches o ref).sum / (overall_matches o ref).length

/-! ## The Stage-2 gate and regressor invocation -/

/-- Python `str.isspace` restricted to the ASCII whitespace characters
(space, tab, newline, carriage return, vertical tab, form feed); the
crop labels handled by the app are ASCII. -/
def isPySpace (c : Char) : Bool :=
  c == ' ' || c == '\t' || c == '\n' || c == '\r' || c.toNat == 11 || c.toNat == 12

/-- Python `str.strip()`: remove leading and trailing whitespace. -/
def pyStrip (s : String) : String :=
  ⟨((s.toList.dropWhile isPySpace).reverse.dropWhile isPySpace).reverse⟩

/-- Python `str.lower()` on ASCII strings (the crop labels are ASCII). -/
def pyLower (s : String) : String :=
  ⟨s.toList.map Char.toLower⟩

/-- Line 1536: `allowed_crops = ["rice", "maize", "cotton"]`. -/
def allowed_crops : List String := ["rice", "maize", "cotton"]

/-- Lines 1630-1648: the combined single-row feature record
`stage2_input` handed to the Stage-2 regressor, with its source field
names: the seven Stage-1 fields, the four numeric and two categorical
Stage-2 inputs, and the predicted crop as `Crop_Type`. -/
structure Stage2Row where
  N : ℚ
  P : ℚ
  K : ℚ
  ph : ℚ
  temperature : ℚ
  humidity : ℚ
  rainfall : ℚ
  Soil_Moisture : ℚ
  Sunlight_Hours : ℚ
  Fertilizer_Used : ℚ
  Pesticide_Used : ℚ
  Soil_Type : String
  Irrigation_Type : String
  Crop_Type : String
deriving DecidableEq, Repr

/-- Building `stage2_input` from the Stage-1 observation, the predicted
crop name and the Stage-2 form inputs (lines 1630-1648). -/
def stage2_input (o : FarmObservation) (crop_name : String) (yi : YieldInputs) : Stage2Row :=
  { N := o.N, P := o.P, K := o.K, ph := o.ph,
    temperature := o.temperature, humidity := o.humidity, rainfall := o.rainfall,
    Soil_Moisture := yi.soil_moisture, Sunlight_Hours := yi.sunlight_hours,
    Fertilizer_Used := yi.fertilizer_used, Pesticide_Used := yi.pesticide_used,
    Soil_Type := yi.soil_type, Irrigation_Type := yi.irrigation_type,
    Crop_Type := crop_name }

/-- The Stage-2 regressor artifact (`xgboost_yield_model.pkl`), embedded
as a function from the feature row to either a predicted yield or the
message of the exception Python would raise (line 1655 may raise, e.g. on
a feature-name or category mismatch). -/
def Regressor : Type := Stage2Row → Except String ℚ

/-- The possible outcomes of the Stage-2 section of `show_prediction`. -/
inductive Stage2Outcome where
  /-- Lines 1727-1728: the predicted crop is outside the allow-list, the
  yield section is skipped (`elif ... not in allowed_crops: pass`). -/
  | unsupported
  /-- The gate passed but `stage2_model` is `None` (the line-1538
  conjunction fails on its second operand); no yield section is offered. -/
  | modelUnavailable
  /-- Line 1655 succeeded: `yield_pred = stage2_model.predict(stage2_input_df)[0]`. -/
  | yieldPrediction (y : ℚ)
  /-- Lines 1721-1722: the regressor raised and the exception was caught,
  `st.error(f"❌ Error predicting yield: {str(e)}")`. -/
  | predictionFailed (msg : String)
deriving DecidableEq, Repr

/-- Lines 1534-1728: the Stage-2 path of `show_prediction`.  The gate is
line 1538, `if crop_name.strip().lower() in allowed_crops and stage2_model
is not None:`; the regressor call inside it is wrapped in `try/except`
(lines 1654-1722).  The second component records whether the regressor's
`predict` was invoked. -/
def stage2_step (stage2_model : Option Regressor) (crop_name : String)
    (o : FarmObservation) (yi : YieldInputs) : Stage2Outcome × Bool :=
  if pyLower (pyStrip crop_name) ∈ allowed_crops then
    match stage2_model with
    | some reg =>
      match reg (stage2_input o crop_name yi) with
      | Except.ok y => (Stage2Outcome.yieldPrediction y, true)
      | Except.error e =>
        (Stage2Outcome.predictionFailed ("❌ Error predicting yield: " ++ e), true)
    | none => (Stage2Outcome.modelUnavailable, false)
  else (Stage2Outcome.unsupported, false)

/-! ## Artifact loading and the top-level flow -/

/-- Lines 77-85, `load_stage1`: `joblib.load` of the classifier and the
label encoder inside `try/except`; a raising load is embedded as
`Except.error` with the exception text.  On failure the handler shows
`st.error(f"Stage 1 model load failed: {e}")` and returns `None, None`. -/
def load_stage1 (raw : Except String Stage1Artifacts) :
    Option Stage1Artifacts × List String :=
  match raw with
  | Except.ok a => (some a, [])
  | Except.error e => (none, ["Stage 1 model load failed: " ++ e])

/-- Lines 87-93, `load_stage2`: same pattern for the regressor; on failure
shows `st.error(f"Stage 2 model load failed: {e}")` and returns `None`. -/
def load_stage2 (raw : Except String Regressor) : Option Regressor × List String :=
  match raw with
  | Except.ok r => (some r, [])
  | Except.error e => (none, ["Stage 2 model load failed: " ++ e])

/-- The outcome of one full `show_prediction` submission. -/
inductive PredictionOutcome where
  /-- Lines 1223-1225: `stage1_model is None or le is None` shows
  `st.error("🚨 Stage 1 model files missing.")` and returns. -/
  | stage1Unavailable
  /-- Stage 1 produced a crop recommendation; the Stage-2 section then
  ran with the recorded outcome. -/
  | report (crop_name : String) (stage2 : Stage2Outcome)
deriving DecidableEq, Repr

/-- `show_prediction` (lines 1217-1728) on one submission: short-circuit
when the Stage-1 artifacts are missing (line 1223); otherwise predict the
crop from the exact submitted values (lines 1294-1296) and run the
Stage-2 section (lines 1534-1728).  A missing Stage-2 model only emits
the line-1227 warning and does not block Stage 1. -/
def show_prediction (stage1 : Option Stage1Artifacts) (stage2 : Option Regressor)
    (o : FarmObservation) (yi : YieldInputs) : PredictionOutcome :=
  match stage1 with
  | none => PredictionOutcome.stage1Unavailable
  | some a =>
    let crop_name := predict_crop a.model a.le o
    PredictionOutcome.report crop_name (stage2_step stage2 crop_name o yi).1

/-! ## Input widgets (lines 1266-1277) -/

/-- A Streamlit integer slider `st.slider(label, lo, hi, default)` accepts
exactly the integers between its bounds. -/
def slider_accepts (lo hi v : ℤ) : Bool :=
  decide (lo ≤ v) && decide (v ≤ hi)

/-- A Streamlit numeric input `st.number_input(label, lo, hi, default)`
accepts exactly the numbers between its bounds. -/
def number_input_accepts (lo hi v : ℚ) : Bool :=
  decide (lo ≤ v) && decide (v ≤ hi)

/-- Line 1268: `N = st.slider("Nitrogen (N) Content", 0, 150, 50)`. -/
def N_widget_accepts (v : ℤ) : Bool := slider_accepts 0 150 v

/-- Line 1269: `P = st.slider("Phosphorus (P) Content", 0, 150, 50)`. -/
def P_widget_accepts (v : ℤ) : Bool := slider_accepts 0 150 v

/-- Line 1270: `K = st.slider("Potassium (K) Content", 0, 150, 50)`. -/
def K_widget_accepts (v : ℤ) : Bool := slider_accepts 0 150 v

/-- Line 1271: `ph = st.number_input("Soil pH Level (0.0 - 14.0)", 0.0, 14.0, 6.5)`. -/
def ph_widget_accepts (v : ℚ) : Bool := number_input_accepts 0 14 v

/-- Line 1275: `temp = st.number_input("Ambient Temperature (°C)", 0.0, 50.0, 25.0)`. -/
def temp_widget_accepts (v : ℚ) : Bool := number_input_accepts 0 50 v

/-- Line 1276: `hum = st.slider("Relative Humidity (%)", 0, 100, 50)`. -/
def hum_widget_accepts (v : ℤ) : Bool := slider_accepts 0 100 v

/-- Line 1277: `rain = st.number_input("Average Rainfall (mm)", 0.0, 1000.0, 100.0)`. -/
def rain_widget_accepts (v : ℚ) : Bool := number_input_accepts 0 1000 v

/-! ## Feature validation -/

/-- Modelled from the spec: the Feature Validator of §4.1 is not present
in `src/CropInsight.py` (this variant feeds the form values to the
classifier directly, lines 1282-1296, with no warning pass); §4.1 gives
its contract: `validate(observation) -> (normalized_observation,
warnings[])`, returning the record numerically unmodified together with
advisory strings for values outside recommended agronomic ranges
(currently: ph outside [3.5, 10.0]), raising no error. -/
def validate (o : FarmObservation) : FarmObservation × List String :=
  (o, if o.ph < 3.5 ∨ 10 < o.ph
      then ["Advisory: soil pH " ++ toString o.ph ++
            " is outside the recommended range [3.5, 10.0]"]
      else [])

/-! ## Reference statistics (lines 1322-1329) -/

/-- One row of the reference dataset `Crop_recommendation.csv`: the crop
label and the seven numeric columns. -/
structure DataRow where
  label : String
  N : ℚ
  P : ℚ
  K : ℚ
  temperature : ℚ
  humidity : ℚ
  ph : ℚ
  rainfall : ℚ
deriving DecidableEq, Repr

/-- Line 1323: `crop_data = df[df["label"] == crop_name]` — the dataset
rows labelled with the predicted crop. -/
def crop_data (df : List DataRow) (crop_name : String) : List DataRow :=
  df.filter fun r => r.label == crop_name

/-- Pandas `Series.mode()`: the value(s) of maximal multiplicity, each
listed once, sorted ascending; empty exactly when the series is empty. -/
def series_mode (l : List ℚ) : List ℚ :=
  List.insertionSort (· ≤ ·)
    (l.dedup.filter fun x => l.count x == (l.map fun y => l.count y).foldr max 0)

/-- Pandas `Series.mean()` of a column. -/
def series_mean (l : List ℚ) : ℚ := l.sum / l.length

/-- Lines 1328-1329:
`mode_values = crop_data[col].mode()` and
`crop_frequently_used[col] = mode_values[0] if len(mode_values) > 0 else crop_data[col].mean()`. -/
def reference_value (col : List ℚ) : ℚ :=
  if (series_mode col).length > 0 then (series_mode col).headI else series_mean col

/-- Lines 1326-1329 for one column `col`: the reference value of that
parameter for the predicted crop. -/
def crop_frequently_used (df : List DataRow) (crop_name : String) (col : DataRow → ℚ) : ℚ :=
  reference_value ((crop_data df crop_name).map col)

/-! ## Concrete fixtures used by witnesses -/

/-- The spec's §8 end-to-end scenario observation. -/
def obs0 : FarmObservation :=
  { N := 90, P := 42, K := 43, temperature := 20.9, humidity := 82, ph := 6.5, rainfall := 202.9 }

/-- The spec's §8 SFI scenario observation (N=90, P=40, K=45). -/
def obs_sfi : FarmObservation :=
  { N := 90, P := 40, K := 45, temperature := 25, humidity := 60, ph := 6.5, rainfall := 100 }

/-- A concrete Stage-2 form submission (the widgets' default values). -/
def yi0 : YieldInputs :=
  { soil_moisture := 50, sunlight_hours := 8, fertilizer_used := 100,
    pesticide_used := 5, soil_type := "Loamy", irrigation_type := "Drip" }

/-- A concrete reference-value record. -/
def ref0 : CropReference :=
  { N := 90, P := 42, K := 43, temperature := 20.9, humidity := 82, ph := 6.5, rainfall := 202.9 }

/-- A regressor that always succeeds. -/
def reg_ok : Regressor := fun _ => Except.ok 4.2

/-- A regressor that always raises a schema-mismatch error. -/
def reg_err : Regressor := fun _ => Except.error "feature mismatch"

/-- A one-row reference dataset. -/
def df0 : List DataRow :=
  [{ label := "rice", N := 90, P := 42, K := 43, temperature := 20.9,
     humidity := 82, ph := 6.5, rainfall := 202.9 }]

/-! ## Claims -/

/-- C1: Stage-1 crop prediction builds the classifier's single-row
feature vector in exactly the fixed order
[N, P, K, temperature, humidity, ph, rainfall], and maps the classifier's
integer class index back to a crop-name string via the label encoder's
inverse transform, for every submitted FarmObservation. -/
theorem stage1_feature_order_and_decoding (model : List ℚ → ℕ) (le : ℕ → String)
    (stage2 : Option Regressor) (o : FarmObservation) (yi : YieldInputs) :
    input_stage1 o = [o.N, o.P, o.K, o.temperature, o.humidity, o.ph, o.rainfall] ∧
    predict_crop model le o =
      le (model [o.N, o.P, o.K, o.temperature, o.humidity, o.ph, o.rainfall]) ∧
    show_prediction (some ⟨model, le⟩) stage2 o yi =
      PredictionOutcome.report (le (model (input_stage1 o)))
        (stage2_step stage2 (le (model (input_stage1 o))) o yi).1 :=
  ⟨rfl, rfl, rfl⟩

/-- C4: THI is a pure function of temperature and humidity computed as
`temperature - (0.55 - 0.0055 * humidity) * (temperature - 14.4)`, and
THI(25, 60) equals exactly 22.668 (exact rational arithmetic). -/
theorem thi_formula_and_value :
    (∀ t h : ℚ, thi t h = t - (0.55 - 0.0055 * h) * (t - 14.4)) ∧
    thi 25 60 = 22.668 := by
  refine ⟨fun t h => rfl, ?_⟩
  norm_num [thi]

/-- C5: SFI is computed as (N + P + K) / 3 for every observation, is
non-negative when N, P, K are non-negative, and SFI(N=90, P=40, K=45)
equals 58.33 to two decimals (it is 175/3, within 0.005 of 58.33). -/
theorem sfi_formula (o : FarmObservation)
    (hN : 0 ≤ o.N) (hP : 0 ≤ o.P) (hK : 0 ≤ o.K) :
    sfi o = (o.N + o.P + o.K) / 3 ∧ 0 ≤ sfi o ∧ |sfi obs_sfi - 58.33| < 0.005 := by
  refine ⟨rfl, ?_, ?_⟩
  · unfold sfi
    positivity
  · rw [abs_sub_lt_iff]
    norm_num [sfi, obs_sfi]

/-- Witness for `sfi_formula` at the spec's SFI scenario. -/
theorem sfi_formula_witness :
    ((0:ℚ) ≤ obs_sfi.N ∧ (0:ℚ) ≤ obs_sfi.P ∧ (0:ℚ) ≤ obs_sfi.K) ∧
    (sfi obs_sfi = (obs_sfi.N + obs_sfi.P + obs_sfi.K) / 3 ∧
     0 ≤ sfi obs_sfi ∧ |sfi obs_sfi - 58.33| < 0.005) :=
  ⟨⟨by norm_num [obs_sfi], by norm_num [obs_sfi], by norm_num [obs_sfi]⟩,
   sfi_formula obs_sfi (by norm_num [obs_sfi]) (by norm_num [obs_sfi]) (by norm_num [obs_sfi])⟩

/-- C6: validation never modifies the values fed to the classifier and
never raises: the validated record is numerically identical to the input,
the classifier is invoked on the exact submitted values for every input,
and the warnings are empty exactly when ph lies in [3.5, 10.0] (out-of-range
values yield advisory strings only; the path is total).  The warning pass
is modelled from §4.1 of the spec, which this repository variant omits. -/
theorem validation_is_advisory_only (o : FarmObservation)
    (model : List ℚ → ℕ) (le : ℕ → String) :
    (validate o).1 = o ∧
    predict_crop model le (validate o).1 =
      le (model [o.N, o.P, o.K, o.temperature, o.humidity, o.ph, o.rainfall]) ∧
    ((validate o).2 = [] ↔ 3.5 ≤ o.ph ∧ o.ph ≤ 10) := by
  refine ⟨rfl, rfl, ?_⟩
  have hiff : ¬(o.ph < 3.5 ∨ 10 < o.ph) ↔ (3.5 ≤ o.ph ∧ o.ph ≤ 10) := by
    push_neg
    rfl
  rw [← hiff]
  simp only [validate]
  split
  · rename_i h
    simp [h]
  · rename_i h
    simp [h]

/-- C7: a failing artifact load is caught and converted into `none` plus
an error message; a missing Stage-1 model short-circuits `show_prediction`
before any prediction, while a missing Stage-2 model still lets Stage-1
crop recommendation proceed. -/
theorem model_load_failure_is_nonfatal (e : String) (a : Stage1Artifacts)
    (stage2 : Option Regressor) (o : FarmObservation) (yi : YieldInputs) :
    load_stage1 (Except.error e) = (none, ["Stage 1 model load failed: " ++ e]) ∧
    load_stage2 (Except.error e) = (none, ["Stage 2 model load failed: " ++ e]) ∧
    show_prediction none stage2 o yi = PredictionOutcome.stage1Unavailable ∧
    show_prediction (some a) none o yi =
      PredictionOutcome.report (predict_crop a.model a.le o)
        (stage2_step none (predict_crop a.model a.le o) o yi).1 :=
  ⟨rfl, rfl, rfl, rfl⟩

/-- C2: whenever the stripped, lowercased Stage-1 crop label is outside
the allow-list {rice, maize, cotton}, the Stage-2 path yields the
Unsupported outcome without invoking the regressor, for every model and
every pair of input records; conversely the regressor can only have been
invoked when the label passes the allow-list gate. -/
theorem stage2_allowlist_gate (crop_name : String) (stage2 : Option Regressor)
    (o : FarmObservation) (yi : YieldInputs) :
    (pyLower (pyStrip crop_name) ∉ allowed_crops →
      stage2_step stage2 crop_name o yi = (Stage2Outcome.unsupported, false)) ∧
    ((stage2_step stage2 crop_name o yi).2 = true →
      pyLower (pyStrip crop_name) ∈ allowed_crops) := by
  constructor
  · intro h
    simp [stage2_step, h]
  · intro h
    by_contra hmem
    simp [stage2_step, hmem] at h

/-- Witness for `stage2_allowlist_gate`: the label "banana" short-circuits
to Unsupported even with a loaded, succeeding regressor. -/
theorem stage2_allowlist_gate_witness :
    pyLower (pyStrip "banana") ∉ allowed_crops ∧
    stage2_step (some reg_ok) "banana" obs0 yi0 = (Stage2Outcome.unsupported, false) :=
  ⟨by decide, (stage2_allowlist_gate "banana" (some reg_ok) obs0 yi0).1 (by decide)⟩

/-- C8: every error raised by the Stage-2 regressor during prediction is
caught per call and surfaced as a prediction-failed outcome carrying the
underlying cause; the path is a total function, so the failure never
propagates. -/
theorem prediction_failure_caught (reg : Regressor) (crop_name : String)
    (o : FarmObservation) (yi : YieldInputs) (e : String)
    (hgate : pyLower (pyStrip crop_name) ∈ allowed_crops)
    (herr : reg (stage2_input o crop_name yi) = Except.error e) :
    stage2_step (some reg) crop_name o yi =
      (Stage2Outcome.predictionFailed ("❌ Error predicting yield: " ++ e), true) := by
  unfold stage2_step
  rw [if_pos hgate]
  simp [herr]

/-- Witness for `prediction_failure_caught`: a regressor raising a
schema-mismatch error on a "rice" prediction is caught and surfaced. -/
theorem prediction_failure_caught_witness :
    pyLower (pyStrip "rice") ∈ allowed_crops ∧
    reg_err (stage2_input obs0 "rice" yi0) = Except.error "feature mismatch" ∧
    stage2_step (some reg_err) "rice" obs0 yi0 =
      (Stage2Outcome.predictionFailed ("❌ Error predicting yield: " ++ "feature mismatch"),
       true) :=
  ⟨by decide, rfl,
   prediction_failure_caught reg_err "rice" obs0 yi0 "feature mismatch" (by decide) rfl⟩

/-- C3: for a non-negative reference (the base parameters' domains are
non-negative), the per-parameter match score equals the spec's
`clamp(100 - |user - reference| / reference * 100, 0, 100)` when the
reference is non-zero and equals 100 when the reference is zero (the
division is guarded by the `if`); user = reference with a non-zero
reference gives exactly 100; and the overall match is the unweighted
arithmetic mean of the seven per-parameter scores. -/
theorem match_score_formula (u r : ℚ) (hr : 0 ≤ r)
    (o : FarmObservation) (ref : CropReference) :
    match_pct u r = match_pct_spec u r ∧
    (r ≠ 0 → match_pct u r = max 0 (min 100 (100 - |u - r| / r * 100))) ∧
    (r = 0 → match_pct u r = 100) ∧
    (u = r → r ≠ 0 → match_pct u r = 100) ∧
    avg_match o ref =
      (match_pct o.N ref.N + match_pct o.P ref.P + match_pct o.K ref.K +
       match_pct o.ph ref.ph + match_pct o.temperature ref.temperature +
       match_pct o.humidity ref.humidity + match_pct o.rainfall ref.rainfall) / 7 := by
  have habs : r ≠ 0 → |(u - r) / r * 100| = |u - r| / r * 100 := by
    intro hne
    have hpos : 0 < r := lt_of_le_of_ne hr (Ne.symm hne)
    rw [abs_mul, abs_div, abs_of_pos hpos]
    norm_num
  have hformula : r ≠ 0 →
      match_pct u r = max 0 (min 100 (100 - |u - r| / r * 100)) := by
    intro hne
    rw [match_pct, if_pos hne, habs hne]
  refine ⟨?_, hformula, ?_, ?_, ?_⟩
  · by_cases hne : r ≠ 0
    · rw [hformula hne, match_pct_spec, if_pos hne]
    · rw [not_not] at hne
      subst hne
      rw [match_pct, match_pct_spec]
      norm_num
  · intro h0
    subst h0
    rw [match_pct]
    norm_num
  · intro hu hne
    subst hu
    rw [hformula hne]
    norm_num
  · rw [avg_match, overall_matches]
    simp [List.sum_cons, List.sum_nil]
    ring

/-- Witness for `match_score_formula` at user = 3, reference = 2: the
score is clamp(100 - 50) = 50. -/
theorem match_score_formula_witness :
    ((0:ℚ) ≤ 2 ∧ (2:ℚ) ≠ 0) ∧
    match_pct 3 2 = max 0 (min 100 (100 - |(3:ℚ) - 2| / 2 * 100)) :=
  ⟨⟨by norm_num, by norm_num⟩,
   (match_score_formula 3 2 (by norm_num) obs0 ref0).2.1 (by norm_num)⟩

/-- C9 counterexample: the claimed N/P/K widget range [0, 200] fails at
the input 180 — the Nitrogen slider is `st.slider(..., 0, 150, 50)`, so
180 lies inside the claimed range but is rejected. -/
theorem npk_widget_range_counterexample :
    ¬ (N_widget_accepts 180 = true ↔ (0 ≤ (180:ℤ) ∧ (180:ℤ) ≤ 200)) := by
  decide

/-- C9 amended: the N, P and K sliders accept exactly the integer range
[0, 150] (not [0, 200]), so every value reaching the classifier satisfies
0 ≤ N, P, K ≤ 150 and no value in that range is rejected; the remaining
form widgets enforce the data model's ranges (humidity [0, 100],
ph [0, 14], temperature [0, 50], rainfall [0, 1000]). -/
theorem widget_ranges (v : ℤ) (q : ℚ) :
    (N_widget_accepts v = true ↔ 0 ≤ v ∧ v ≤ 150) ∧
    (P_widget_accepts v = true ↔ 0 ≤ v ∧ v ≤ 150) ∧
    (K_widget_accepts v = true ↔ 0 ≤ v ∧ v ≤ 150) ∧
    (hum_widget_accepts v = true ↔ 0 ≤ v ∧ v ≤ 100) ∧
    (ph_widget_accepts q = true ↔ 0 ≤ q ∧ q ≤ 14) ∧
    (temp_widget_accepts q = true ↔ 0 ≤ q ∧ q ≤ 50) ∧
    (rain_widget_accepts q = true ↔ 0 ≤ q ∧ q ≤ 1000) := by
  simp [N_widget_accepts, P_widget_accepts, K_widget_accepts, hum_widget_accepts,
        ph_widget_accepts, temp_widget_accepts, rain_widget_accepts,
        slider_accepts, number_input_accepts]

/-! ## Mode attainment lemmas for C10 -/

/-- Every member of a list of naturals is bounded by the fold of `max`
over the list. -/
theorem le_foldr_max (xs : List ℕ) (a : ℕ) (ha : a ∈ xs) : a ≤ xs.foldr max 0 := by
  induction xs with
  | nil => cases ha
  | cons x t ih =>
    rw [List.foldr_cons]
    rcases List.mem_cons.mp ha with h | h
    · subst h
      exact le_max_left _ _
    · exact le_trans (ih h) (le_max_right _ _)

/-- The fold of `max` over a list of naturals is attained by a member of
the list unless it is zero. -/
theorem foldr_max_attained (xs : List ℕ) : xs.foldr max 0 ∈ xs ∨ xs.foldr max 0 = 0 := by
  induction xs with
  | nil => exact Or.inr rfl
  | cons x t ih =>
    rw [List.foldr_cons]
    rcases le_total x (t.foldr max 0) with h | h
    · rw [max_eq_right h]
      rcases ih with hm | hz
      · exact Or.inl (List.mem_cons_of_mem _ hm)
      · exact Or.inr hz
    · rw [max_eq_left h]
      exact Or.inl (List.mem_cons_self _ _)

/-- The mode of a non-empty series is non-empty: the maximal multiplicity
is positive and attained by some value of the series. -/
theorem series_mode_ne_nil (l : List ℚ) (hl : l ≠ []) : series_mode l ≠ [] := by
  obtain ⟨x, hx⟩ := List.exists_mem_of_ne_nil l hl
  have hcount_le : l.count x ≤ (l.map fun y => l.count y).foldr max 0 :=
    le_foldr_max _ _ (List.mem_map_of_mem _ hx)
  have hcount_pos : 0 < l.count x := List.count_pos_iff.mpr hx
  have hmcpos : 0 < (l.map fun y => l.count y).foldr max 0 :=
    lt_of_lt_of_le hcount_pos hcount_le
  have hattain : (l.map fun y => l.count y).foldr max 0 ∈ l.map fun y => l.count y := by
    rcases foldr_max_attained (l.map fun y => l.count y) with hm | hz
    · exact hm
    · omega
  obtain ⟨y, hy, hyc⟩ := List.mem_map.mp hattain
  have hyf : y ∈ l.dedup.filter fun z =>
      l.count z == (l.map fun y => l.count y).foldr max 0 :=
    List.mem_filter.mpr ⟨List.mem_dedup.mpr hy, by simp [hyc]⟩
  intro hnil
  have hperm := List.perm_insertionSort (· ≤ ·)
    (l.dedup.filter fun z => l.count z == (l.map fun y => l.count y).foldr max 0)
  rw [series_mode] at hnil
  rw [hnil] at hperm
  exact List.not_mem_nil y (hperm.symm.eq_nil ▸ hyf)

/-- C10: the reference value of a parameter is the first mode of the
per-crop column when the mode series is non-empty, and the column mean
when the mode series is empty; for a non-empty per-crop subset of the
reference dataset the mode series is never empty, so the reference value
is always the first mode there. -/
theorem reference_value_mode_then_mean (l : List ℚ) (df : List DataRow)
    (crop_name : String) (col : DataRow → ℚ) :
    (series_mode l ≠ [] → reference_value l = (series_mode l).headI) ∧
    (series_mode l = [] → reference_value l = series_mean l) ∧
    (crop_data df crop_name ≠ [] →
      series_mode ((crop_data df crop_name).map col) ≠ [] ∧
      crop_frequently_used df crop_name col =
        (series_mode ((crop_data df crop_name).map col)).headI) := by
  refine ⟨?_, ?_, ?_⟩
  · intro h
    rw [reference_value, if_pos (List.length_pos.mpr h)]
  · intro h
    rw [reference_value, h]
    simp
  · intro h
    have hmap : (crop_data df crop_name).map col ≠ [] := by
      intro hm
      exact h (List.map_eq_nil_iff.mp hm)
    have hmode := series_mode_ne_nil _ hmap
    refine ⟨hmode, ?_⟩
    rw [crop_frequently_used, reference_value, if_pos (List.length_pos.mpr hmode)]

/-- Witness for `reference_value_mode_then_mean` on the series [2, 1, 1]
(whose mode series is [1]) and on a one-row "rice" dataset. -/
theorem reference_value_witness :
    (series_mode [(2:ℚ), 1, 1] ≠ [] ∧
     reference_value [(2:ℚ), 1, 1] = (series_mode [(2:ℚ), 1, 1]).headI) ∧
    (crop_data df0 "rice" ≠ [] ∧
     crop_frequently_used df0 "rice" DataRow.N =
       (series_mode ((crop_data df0 "rice").map DataRow.N)).headI) :=
  ⟨⟨by decide,
    (reference_value_mode_then_mean [(2:ℚ), 1, 1] df0 "rice" DataRow.N).1 (by decide)⟩,
   ⟨by decide,
    ((reference_value_mode_then_mean [(2:ℚ), 1, 1] df0 "rice" DataRow.N).2.2 (by decide)).2⟩⟩

end CropInsight
